import Mathlib

/-!
Shallow embedding of `src/crawler.py` (kstartup-crawl): a crawl-diff-notify
pipeline.  Pure computations (regex id extraction, the delta filter, the
eligibility predicate, message formatting, state truncation) are translated
directly; the effectful parts (browser launch, page navigation, per-item
detail extraction, HTTP delivery status) are modelled as an explicit
environment record, and the run `crawl` is a total function from that
environment and the state-file contents to the run's observable outcome
(ids visited, posts collected, messages passed to the notifier, state saved),
or to an error when the Python run would raise out of `crawl()`.
-/

set_option autoImplicit false

namespace KStartup

/-! ## Listing scan: `re.search(r"go_view\((\d+)\)", href)` over listing hrefs -/

/-- Attempt the pattern `go_view\((\d+)\)` anchored at the head of `cs`:
the literal `go_view(`, then a maximal nonempty run of decimal digits
(greedy `\d+`; since a digit is never `)` backtracking cannot succeed where
the maximal run fails), then `)`.  Returns the capture group. -/
def goViewAt (cs : List Char) : Option String :=
  if ("go_view(".data).isPrefixOf cs then
    let rest := cs.drop 8
    let ds := rest.takeWhile Char.isDigit
    if ds.isEmpty then none
    else
      match rest.dropWhile Char.isDigit with
      | ')' :: _ => some (String.mk ds)
      | _ => none
  else none

/-- `re.search`: try the pattern at each position, leftmost match wins. -/
def goViewSearch : List Char → Option String
  | [] => none
  | c :: cs =>
    match goViewAt (c :: cs) with
    | some t => some t
    | none => goViewSearch cs

/-- Lines 86-92 of `crawler.py`: collect `match.group(1)` for each listing
href on which the pattern matches, in listing order; non-matching hrefs
are skipped (`if match:`).  No de-duplication is performed. -/
def scanListing (hrefs : List String) : List String :=
  hrefs.filterMap (fun h => goViewSearch h.data)

/-! ## Delta: `new_ids = [id for id in candidate_ids if id not in last_titles]` -/

def newIds (candidate_ids last_titles : List String) : List String :=
  candidate_ids.filter (fun i => decide (i ∉ last_titles))

/-! ## Eligibility filter: `is_target_age = "전체" in age or "40세" in age` -/

/-- Python's substring test `sub in s`. -/
def strContains (s sub : String) : Bool :=
  decide (sub.data <:+: s.data)

def is_target_age (age : String) : Bool :=
  strContains age "전체" || strContains age "40세"

/-! ## Detail pages and posts -/

def detailUrl (sn : String) : String :=
  "https://www.k-startup.go.kr/web/contents/bizpbanc-ongoing.do?schM=view&pbancSn=" ++ sn

structure Post where
  title : String
  link : String
  period : String
  age : String
  deriving Repr, DecidableEq

/-- Outcome of navigating to one detail page and extracting its fields.
`ok` carries the title (after the in-code fallback chain), period and age
texts (each already defaulted to the sentinel when absent); `error` is any
exception reaching the per-item `except` handler. -/
inductive DetailResult where
  | ok (title period age : String)
  | error
  deriving Repr, DecidableEq

/-- The per-item loop (lines 100-152): for each new id in order, extract;
on success filter by age and in either branch append the id to
`current_titles`; on error only log — the id is NOT appended. Returns
(`new_posts`, `current_titles`). -/
def processItems (extract : String → DetailResult) : List String → List Post × List String
  | [] => ([], [])
  | i :: rest =>
    let tail := processItems extract rest
    match extract i with
    | DetailResult.error => tail
    | DetailResult.ok t p a =>
      if is_target_age a then
        (Post.mk t (detailUrl i) p a :: tail.1, i :: tail.2)
      else
        (tail.1, i :: tail.2)

/-- The Telegram message built for one qualifying post (lines 168-174). -/
def formatMsg (p : Post) : String :=
  "[새로운 공고]\n제목: " ++ p.title ++ "\n기간: " ++ p.period ++ "\n대상: " ++ p.age
    ++ "\n" ++ p.link

/-! ## Notifier: `send_telegram_message` -/

inductive SendOutcome where
  /-- Bot token or chat id missing: the message is printed, not sent. -/
  | skippedNoConfig
  /-- An HTTP POST was made and returned this status; a status other than
  200 is logged (`Failed to send...`) and the function returns normally. -/
  | posted (status : Nat)
  deriving Repr, DecidableEq

def send_telegram_message (config : Bool) (status : String → Nat) (msg : String) :
    SendOutcome :=
  if config then SendOutcome.posted (status msg) else SendOutcome.skippedNoConfig

/-! ## State file: `load_last_seen` / `save_last_seen` -/

/-- A parsed JSON value, restricted to the shapes the program distinguishes:
a dict (with the `"titles"` key either absent or holding a list of
identifier strings), or any non-dict JSON value (array, string, number,
bool, null). -/
inductive PyJson where
  | obj (titles : Option (List String))
  | nonObj
  deriving Repr, DecidableEq

/-- The four conditions the state file can be in when the run starts. -/
inductive StateFile where
  | missing
  | unreadable
  | invalidJson
  | validJson (v : PyJson)
  deriving Repr, DecidableEq

/-- Lines 31-38: missing file returns `{}`; a raised open/read or
`json.load` error is swallowed by the bare `except` and returns `{}`;
otherwise the parsed value is returned as-is. -/
def load_last_seen : StateFile → PyJson
  | StateFile.missing => PyJson.obj none
  | StateFile.unreadable => PyJson.obj none
  | StateFile.invalidJson => PyJson.obj none
  | StateFile.validJson v => v

/-- Line 48: `last_seen.get("titles", [])`.  On a dict this yields the
`titles` value or the default `[]`; on any non-dict value `.get` raises
`AttributeError`, which nothing in `crawl()` catches. -/
def getTitles : PyJson → Except Unit (List String)
  | PyJson.obj none => Except.ok []
  | PyJson.obj (some ts) => Except.ok ts
  | PyJson.nonObj => Except.error ()

/-- Line 182: `all_ids = list(set(current_titles + last_titles))`.
CPython's `list(set(..))` produces the distinct elements in an order
depending on hashing; we parametrise over that order: `setOrder` is any
function producing a duplicate-free list with the same members. -/
def IsSetList (setOrder : List String → List String) : Prop :=
  ∀ l, (setOrder l).Nodup ∧ ∀ x, x ∈ setOrder l ↔ x ∈ l

/-- Line 183: the titles array actually written, `all_ids[:100]`. -/
def savedTitles (setOrder : List String → List String)
    (current_titles last_titles : List String) : List String :=
  (setOrder (current_titles ++ last_titles)).take 100

/-! ## The run -/

/-- The external world of one run: whether any of the three browsers
launches, the listing page's `a[href^="javascript:go_view"]` href
attributes (`none` when navigation to the listing URL raises), the detail
extraction outcome per identifier, the Telegram configuration, and the
HTTP status the Telegram API returns for each message. -/
structure Env where
  browserLaunch : Bool
  listingHrefs : Option (List String)
  extract : String → DetailResult
  config : Bool
  sendStatus : String → Nat

/-- Observable outcome of one run: the ids whose detail page was visited
(in order), the qualifying posts collected, the messages handed to
`send_telegram_message` with their outcome, and the titles array written
to the state file (`none` when no save happened). -/
structure CrawlResult where
  checked : List String
  posts : List Post
  notifications : List (String × SendOutcome)
  saved : Option (List String)
  deriving Repr, DecidableEq

/-- `crawl()` (lines 44-183).  Order of events as in the source: load
state and read `titles` (a non-dict state value raises here); browser
launch failure returns before any save; a listing-navigation failure is
caught by the outer `except` (diagnostics are captured best-effort) and
execution falls through to the notification and save phases with empty
accumulators; otherwise scan, diff, per-item processing, notification of
each collected post in order, and one final save of
`list(set(current_titles + last_titles))[:100]`. -/
def runListing (setOrder : List String → List String) (env : Env)
    (hrefs last_titles : List String) : CrawlResult :=
  let candidate_ids := scanListing hrefs
  let new_ids := newIds candidate_ids last_titles
  let pc := processItems env.extract new_ids
  let notifs := pc.1.map (fun p =>
    let m := formatMsg p
    (m, send_telegram_message env.config env.sendStatus m))
  CrawlResult.mk new_ids pc.1 notifs (some (savedTitles setOrder pc.2 last_titles))

def crawlBody (setOrder : List String → List String) (env : Env)
    (last_titles : List String) : CrawlResult :=
  if env.browserLaunch then
    match env.listingHrefs with
    | none =>
      CrawlResult.mk [] [] [] (some (savedTitles setOrder [] last_titles))
    | some hrefs => runListing setOrder env hrefs last_titles
  else
    CrawlResult.mk [] [] [] none

def crawl (setOrder : List String → List String) (env : Env) (file : StateFile) :
    Except Unit CrawlResult :=
  (getTitles (load_last_seen file)).map (crawlBody setOrder env)

/-- A string of one or more decimal digits — the language of the capture
group `(\d+)`. -/
def isDigitStr (s : String) : Bool :=
  !s.data.isEmpty && s.data.all Char.isDigit

/-- The three components of a run outcome that do not depend on delivery
results: the messages handed to the notifier, the posts, the ids checked,
and the saved state. -/
def stripOutcomes (r : CrawlResult) : List String × List Post × Option (List String) :=
  (r.notifications.map Prod.fst, r.posts, r.saved)

/-- The same environment with a different Telegram HTTP response behaviour. -/
def withStatus (env : Env) (status : String → Nat) : Env :=
  Env.mk env.browserLaunch env.listingHrefs env.extract env.config status

/-! ## Concrete test environments -/

/-- A listing page with three announcement links. -/
def cexHrefs : List String :=
  ["javascript:go_view(1);", "javascript:go_view(2);", "javascript:go_view(3);"]

/-- An environment where the detail page of id "1" raises, id "2" is open
to all ages, and id "3" is age-restricted; no Telegram configuration. -/
def cexEnv : Env :=
  Env.mk true (some cexHrefs)
    (fun i =>
      if i = "1" then DetailResult.error
      else DetailResult.ok "T" "P" (if i = "2" then "전체" else "만 20세"))
    false (fun _ => 200)

/-- The qualifying post produced by `cexEnv` for id "2". -/
def cexPost : Post := Post.mk "T" (detailUrl "2") "P" "전체"

/-- An environment where the browser launches but navigation to the
listing page raises. -/
def navFailEnv : Env :=
  Env.mk true none (fun _ => DetailResult.error) false (fun _ => 200)

/-- An environment whose listing page has no announcement links at all. -/
def plainEnv : Env :=
  Env.mk true (some []) (fun _ => DetailResult.error) false (fun _ => 200)

/-! ## Helper lemmas -/

theorem goViewAt_digits {cs : List Char} {t : String} (h : goViewAt cs = some t) :
    isDigitStr t = true := by
  unfold goViewAt at h
  split at h
  · dsimp only at h
    split at h
    · exact absurd h (by simp)
    · rename_i hne
      split at h
      · cases h
        simp only [isDigitStr, List.all_eq_true, Bool.and_eq_true, Bool.not_eq_true']
        exact ⟨by simpa using hne, fun c hc => List.mem_takeWhile_imp hc⟩
      · exact absurd h (by simp)
  · exact absurd h (by simp)

theorem goViewSearch_digits : ∀ {cs : List Char} {t : String},
    goViewSearch cs = some t → isDigitStr t = true := by
  intro cs
  induction cs with
  | nil => intro t h; cases h
  | cons c cs ih =>
    intro t h
    unfold goViewSearch at h
    split at h
    · cases h; rename_i ha; exact goViewAt_digits ha
    · exact ih h

theorem scanListing_digits {hrefs : List String} {t : String}
    (h : t ∈ scanListing hrefs) : isDigitStr t = true := by
  unfold scanListing at h
  rw [List.mem_filterMap] at h
  obtain ⟨a, -, ha⟩ := h
  exact goViewSearch_digits ha

theorem newIds_toFinset (cand last : List String) :
    (newIds cand last).toFinset = cand.toFinset \ last.toFinset := by
  ext x
  simp [newIds, List.mem_filter]

theorem newIds_sublist (cand last : List String) : (newIds cand last).Sublist cand :=
  List.filter_sublist cand

theorem newIds_not_mem_of_mem_last {cand last : List String} {i : String}
    (h : i ∈ last) : i ∉ newIds cand last := by
  simp [newIds, List.mem_filter, h]

theorem mem_newIds {cand last : List String} {i : String} :
    i ∈ newIds cand last ↔ i ∈ cand ∧ i ∉ last := by
  simp [newIds, List.mem_filter]

theorem processItems_nil (extract : String → DetailResult) :
    processItems extract [] = ([], []) := rfl

theorem processItems_cons_error {extract : String → DetailResult} {i : String}
    (h : extract i = DetailResult.error) (rest : List String) :
    processItems extract (i :: rest) = processItems extract rest := by
  conv_lhs => unfold processItems
  simp [h]

theorem processItems_cons_ok_pass {extract : String → DetailResult} {i t p a : String}
    (h : extract i = DetailResult.ok t p a) (ha : is_target_age a = true)
    (rest : List String) :
    processItems extract (i :: rest) =
      (Post.mk t (detailUrl i) p a :: (processItems extract rest).1,
       i :: (processItems extract rest).2) := by
  conv_lhs => unfold processItems
  simp [h, ha]

theorem processItems_cons_ok_fail {extract : String → DetailResult} {i t p a : String}
    (h : extract i = DetailResult.ok t p a) (ha : is_target_age a = false)
    (rest : List String) :
    processItems extract (i :: rest) =
      ((processItems extract rest).1, i :: (processItems extract rest).2) := by
  conv_lhs => unfold processItems
  simp [h, ha]

theorem processItems_snd_subset {extract : String → DetailResult} :
    ∀ {l : List String} {i : String}, i ∈ (processItems extract l).2 → i ∈ l := by
  intro l
  induction l with
  | nil => intro i h; cases h
  | cons j rest ih =>
    intro i h
    cases hx : extract j with
    | ok t p a =>
      cases ha : is_target_age a with
      | false =>
        rw [processItems_cons_ok_fail hx ha] at h
        rcases List.mem_cons.mp h with h | h
        · exact h ▸ List.mem_cons_self _ _
        · exact List.mem_cons_of_mem _ (ih h)
      | true =>
        rw [processItems_cons_ok_pass hx ha] at h
        rcases List.mem_cons.mp h with h | h
        · exact h ▸ List.mem_cons_self _ _
        · exact List.mem_cons_of_mem _ (ih h)
    | error =>
      rw [processItems_cons_error hx] at h
      exact List.mem_cons_of_mem _ (ih h)

theorem processItems_fst_link {extract : String → DetailResult} :
    ∀ {l : List String} {p : Post}, p ∈ (processItems extract l).1 →
      ∃ i, i ∈ l ∧ p.link = detailUrl i := by
  intro l
  induction l with
  | nil => intro p h; cases h
  | cons j rest ih =>
    intro p h
    cases hx : extract j with
    | ok t per a =>
      cases ha : is_target_age a with
      | false =>
        rw [processItems_cons_ok_fail hx ha] at h
        obtain ⟨i, hi, hl⟩ := ih h
        exact ⟨i, List.mem_cons_of_mem _ hi, hl⟩
      | true =>
        rw [processItems_cons_ok_pass hx ha] at h
        rcases List.mem_cons.mp h with h | h
        · exact ⟨j, List.mem_cons_self _ _, by rw [h]⟩
        · obtain ⟨i, hi, hl⟩ := ih h
          exact ⟨i, List.mem_cons_of_mem _ hi, hl⟩
    | error =>
      rw [processItems_cons_error hx] at h
      obtain ⟨i, hi, hl⟩ := ih h
      exact ⟨i, List.mem_cons_of_mem _ hi, hl⟩

theorem processItems_error_skip {extract : String → DetailResult} {x : String}
    (hx : extract x = DetailResult.error) (l₁ l₂ : List String) :
    processItems extract (l₁ ++ x :: l₂) = processItems extract (l₁ ++ l₂) := by
  induction l₁ with
  | nil =>
    simp only [List.nil_append]
    exact processItems_cons_error hx l₂
  | cons j rest ih =>
    simp only [List.cons_append]
    cases hj : extract j with
    | ok t p a =>
      cases ha : is_target_age a with
      | false =>
        rw [processItems_cons_ok_fail hj ha, processItems_cons_ok_fail hj ha, ih]
      | true =>
        rw [processItems_cons_ok_pass hj ha, processItems_cons_ok_pass hj ha, ih]
    | error =>
      rw [processItems_cons_error hj, processItems_cons_error hj, ih]

theorem processItems_error_not_mem {extract : String → DetailResult} {x : String}
    (hx : extract x = DetailResult.error) :
    ∀ {l : List String}, x ∉ (processItems extract l).2 := by
  intro l
  induction l with
  | nil => intro h; cases h
  | cons j rest ih =>
    intro h
    cases hj : extract j with
    | ok t p a =>
      have hne : x ≠ j := by
        intro he
        rw [he, hj] at hx
        cases hx
      cases ha : is_target_age a with
      | false =>
        rw [processItems_cons_ok_fail hj ha] at h
        rcases List.mem_cons.mp h with h | h
        · exact hne h
        · exact ih h
      | true =>
        rw [processItems_cons_ok_pass hj ha] at h
        rcases List.mem_cons.mp h with h | h
        · exact hne h
        · exact ih h
    | error =>
      rw [processItems_cons_error hj] at h
      exact ih h

theorem detailUrl_inj {a b : String} (h : detailUrl a = detailUrl b) : a = b := by
  unfold detailUrl at h
  have hd := congrArg String.data h
  simp only [String.data_append] at hd
  exact String.ext (List.append_cancel_left hd)

theorem savedTitles_length_le (setOrder : List String → List String)
    (current last : List String) : (savedTitles setOrder current last).length ≤ 100 :=
  List.length_take_le 100 _

theorem crawl_eq_ok {setOrder : List String → List String} {env : Env}
    {file : StateFile} {last : List String}
    (hg : getTitles (load_last_seen file) = Except.ok last) :
    crawl setOrder env file = Except.ok (crawlBody setOrder env last) := by
  unfold crawl
  rw [hg]
  rfl

theorem crawlBody_noBrowser {setOrder : List String → List String} {env : Env}
    (hb : env.browserLaunch = false) (last : List String) :
    crawlBody setOrder env last = CrawlResult.mk [] [] [] none := by
  unfold crawlBody
  rw [hb]
  rfl

theorem crawlBody_listingFail {setOrder : List String → List String} {env : Env}
    (hb : env.browserLaunch = true) (hn : env.listingHrefs = none)
    (last : List String) :
    crawlBody setOrder env last =
      CrawlResult.mk [] [] [] (some (savedTitles setOrder [] last)) := by
  unfold crawlBody
  rw [hb, hn]
  rfl

theorem crawlBody_listing {setOrder : List String → List String} {env : Env}
    {hrefs : List String} (hb : env.browserLaunch = true)
    (hn : env.listingHrefs = some hrefs) (last : List String) :
    crawlBody setOrder env last = runListing setOrder env hrefs last := by
  unfold crawlBody
  rw [hb, hn]
  rfl

theorem crawl_saved_shape {setOrder : List String → List String} {env : Env}
    {file : StateFile} {r : CrawlResult} {ts : List String}
    (h : crawl setOrder env file = Except.ok r) (hs : r.saved = some ts) :
    ∃ c l, ts = savedTitles setOrder c l := by
  rcases hg : getTitles (load_last_seen file) with e | last
  · unfold crawl at h
    rw [hg] at h
    cases h
  · rw [crawl_eq_ok hg] at h
    cases h
    rcases hb : env.browserLaunch with _ | _
    · rw [crawlBody_noBrowser hb] at hs
      cases hs
    · rcases hn : env.listingHrefs with _ | hrefs
      · rw [crawlBody_listingFail hb hn] at hs
        cases hs
        exact ⟨[], last, rfl⟩
      · rw [crawlBody_listing hb hn] at hs
        unfold runListing at hs
        cases hs
        exact ⟨_, last, rfl⟩

theorem isSetList_dedup : IsSetList List.dedup := by
  intro l
  exact ⟨List.nodup_dedup l, fun x => List.mem_dedup⟩

theorem setList_toFinset_eq {setOrder : List String → List String}
    (hso : IsSetList setOrder) (l : List String) :
    (setOrder l).toFinset = l.toFinset := by
  ext x
  simp only [List.mem_toFinset]
  exact (hso l).2 x

theorem setList_length_of_nodup {setOrder : List String → List String}
    (hso : IsSetList setOrder) {l : List String} (hl : l.Nodup) :
    (setOrder l).length = l.length := by
  rw [← List.toFinset_card_of_nodup (hso l).1, ← List.toFinset_card_of_nodup hl,
    setList_toFinset_eq hso]

theorem strip_runListing (setOrder : List String → List String) (env : Env)
    (hrefs last : List String) :
    stripOutcomes (runListing setOrder env hrefs last) =
      ((processItems env.extract (newIds (scanListing hrefs) last)).1.map formatMsg,
       (processItems env.extract (newIds (scanListing hrefs) last)).1,
       some (savedTitles setOrder
         (processItems env.extract (newIds (scanListing hrefs) last)).2 last)) := by
  unfold runListing stripOutcomes
  dsimp only
  rw [List.map_map]
  rfl

theorem stripOutcomes_withStatus (setOrder : List String → List String) (env : Env)
    (s : String → Nat) (last : List String) :
    stripOutcomes (crawlBody setOrder (withStatus env s) last) =
      stripOutcomes (crawlBody setOrder env last) := by
  have hb : (withStatus env s).browserLaunch = env.browserLaunch := rfl
  have hl : (withStatus env s).listingHrefs = env.listingHrefs := rfl
  cases hbb : env.browserLaunch with
  | false =>
    rw [crawlBody_noBrowser (hb.trans hbb), crawlBody_noBrowser hbb]
  | true =>
    cases hn : env.listingHrefs with
    | none =>
      rw [crawlBody_listingFail (hb.trans hbb) (hl.trans hn),
        crawlBody_listingFail hbb hn]
    | some hrefs =>
      rw [crawlBody_listing (hb.trans hbb) (hl.trans hn), crawlBody_listing hbb hn,
        strip_runListing, strip_runListing]
      rfl

/-! ## Claims -/

/-- Claim C2: the eligibility predicate returns true iff the text contains
the all-ages marker `"전체"` or the 40-or-older marker `"40세"` (substring
containment over the source script); in particular it is false on
`"만 39세 이하"`, true on `"전체"` and true on `"만 40세 이상"`.  Purity holds
by construction: `is_target_age` is a function of its argument alone. -/
theorem C2_filter_correct :
    (∀ t : String, is_target_age t = true ↔
      ("전체".data <:+: t.data ∨ "40세".data <:+: t.data))
    ∧ is_target_age "만 39세 이하" = false
    ∧ is_target_age "전체" = true
    ∧ is_target_age "만 40세 이상" = true := by
  refine ⟨fun t => ?_, by decide, by decide, by decide⟩
  simp [is_target_age, strContains]

/-- Claim C4: every save the program performs writes at most 100
identifiers, whatever the prior state and however many ids the run found. -/
theorem C4_bounded_state :
    ∀ (setOrder : List String → List String) (env : Env) (file : StateFile)
      (r : CrawlResult) (ts : List String),
      crawl setOrder env file = Except.ok r →
      r.saved = some ts →
      ts.length ≤ 100 := by
  intro setOrder env file r ts h hs
  obtain ⟨c, l, rfl⟩ := crawl_saved_shape h hs
  exact savedTitles_length_le setOrder c l

/-- Witness for C4 at a concrete run: `cexEnv` from an absent state file
saves `["2", "3"]`, which indeed has at most 100 entries. -/
theorem C4_bounded_state_witness : (["2", "3"] : List String).length ≤ 100 :=
  C4_bounded_state List.dedup cexEnv StateFile.missing
    (CrawlResult.mk ["1", "2", "3"] [cexPost]
      [(formatMsg cexPost, SendOutcome.skippedNoConfig)] (some ["2", "3"]))
    ["2", "3"] rfl rfl

/-- Counterexample to claim C5: with the browser up but listing navigation
failing, the run does NOT abort without a save — it falls through the
error handler and writes the state file (here re-writing the prior id
`"7"`), so the persisted file IS written by that run. -/
theorem C5_counterexample :
    crawl List.dedup navFailEnv (StateFile.validJson (PyJson.obj (some ["7"]))) =
      Except.ok (CrawlResult.mk [] [] [] (some ["7"]))
    ∧ (some ["7"] : Option (List String)) ≠ none := by
  exact ⟨rfl, by simp⟩

/-- Claim C5 as amended: on listing-navigation failure the run sends no
notifications, checks no detail pages and adds no new identifiers, but it
does write the state file, persisting the prior identifiers after the
order-unstable de-duplication and the 100-entry truncation. -/
theorem C5_listing_failure_amended :
    ∀ (setOrder : List String → List String) (env : Env) (file : StateFile)
      (last : List String),
      env.browserLaunch = true →
      env.listingHrefs = none →
      getTitles (load_last_seen file) = Except.ok last →
      crawl setOrder env file =
        Except.ok (CrawlResult.mk [] [] [] (some (savedTitles setOrder [] last))) := by
  intro setOrder env file last hb hn hg
  rw [crawl_eq_ok hg, crawlBody_listingFail hb hn]

/-- Witness for the amended C5 at a concrete input. -/
theorem C5_listing_failure_amended_witness :
    crawl List.dedup navFailEnv StateFile.missing =
      Except.ok (CrawlResult.mk [] [] [] (some (savedTitles List.dedup [] []))) :=
  C5_listing_failure_amended List.dedup navFailEnv StateFile.missing [] rfl rfl rfl

/-- Counterexample to claim C7: the listing scan does NOT de-duplicate —
two listing elements referencing the same id yield the id twice. -/
theorem C7_counterexample :
    scanListing ["javascript:go_view(5);", "javascript:go_view(5);"] = ["5", "5"]
    ∧ ¬ (["5", "5"] : List String).Nodup := by
  exact ⟨rfl, by decide⟩

/-- Claim C7 as amended: the scan returns the ordered sequence of
successfully parsed identifiers, silently skipping elements whose embedded
reference does not match the pattern, but duplicate references are
preserved rather than collapsed. -/
theorem C7_scan_amended :
    (∀ (l₁ l₂ : List String) (h : String), goViewSearch h.data = none →
      scanListing (l₁ ++ h :: l₂) = scanListing l₁ ++ scanListing l₂)
    ∧ (∀ (l₁ l₂ : List String) (h t : String), goViewSearch h.data = some t →
      scanListing (l₁ ++ h :: l₂) = scanListing l₁ ++ t :: scanListing l₂)
    ∧ scanListing ["javascript:go_view(5);", "javascript:go_view(5);"] = ["5", "5"] := by
  refine ⟨?_, ?_, rfl⟩
  · intro l₁ l₂ h hn
    unfold scanListing
    rw [List.filterMap_append, List.filterMap_cons, hn]
  · intro l₁ l₂ h t ht
    unfold scanListing
    rw [List.filterMap_append, List.filterMap_cons, ht]

/-- Witness for the amended C7 at a concrete input: a non-item link is
skipped and a parsed reference is kept in order. -/
theorem C7_scan_amended_witness :
    scanListing (["nope"] ++ "javascript:go_view(5);" :: []) =
      scanListing ["nope"] ++ "5" :: scanListing [] :=
  C7_scan_amended.2.1 ["nope"] [] "javascript:go_view(5);" "5" rfl

/-- Counterexample to claim C8: a state file whose content is valid JSON
but not an object (a bare array, number, string, …) is malformed content
on which the run does not proceed with an empty state — it raises at
`last_seen.get("titles", [])` and the whole run fails. -/
theorem C8_counterexample :
    crawl List.dedup plainEnv (StateFile.validJson PyJson.nonObj) =
      Except.error () := rfl

/-- Claim C8 as amended: a missing file, an unreadable file, and content
that fails JSON parsing each load as the empty seen-state and never fail
the run; but a file whose content parses to a non-object JSON value makes
the run raise before any crawling. -/
theorem C8_state_load_amended :
    getTitles (load_last_seen StateFile.missing) = Except.ok []
    ∧ getTitles (load_last_seen StateFile.unreadable) = Except.ok []
    ∧ getTitles (load_last_seen StateFile.invalidJson) = Except.ok []
    ∧ (∀ (setOrder : List String → List String) (env : Env),
        (∃ r, crawl setOrder env StateFile.missing = Except.ok r)
        ∧ (∃ r, crawl setOrder env StateFile.unreadable = Except.ok r)
        ∧ (∃ r, crawl setOrder env StateFile.invalidJson = Except.ok r))
    ∧ (∀ (setOrder : List String → List String) (env : Env),
        crawl setOrder env (StateFile.validJson PyJson.nonObj) = Except.error ()) := by
  refine ⟨rfl, rfl, rfl, fun setOrder env => ⟨⟨_, rfl⟩, ⟨_, rfl⟩, ⟨_, rfl⟩⟩, ?_⟩
  intro setOrder env
  rfl

/-- Claim C1: delta correctness.  As a set, `new_ids` is exactly the
listing candidates minus the prior seen-state; the filtered list keeps
listing order (it is a sublist of the candidates); no previously seen
identifier survives the filter.  At run level, the ids whose detail pages
the run visits are exactly `new_ids`, and no identifier from the prior
state is notified (each notified post's link carries an id from
`new_ids`). -/
theorem C1_delta_correct :
    (∀ cand last : List String,
      (newIds cand last).toFinset = cand.toFinset \ last.toFinset
      ∧ (newIds cand last).Sublist cand
      ∧ ∀ i ∈ last, i ∉ newIds cand last)
    ∧ (∀ (setOrder : List String → List String) (env : Env) (file : StateFile)
        (hrefs last : List String) (r : CrawlResult),
        env.browserLaunch = true →
        env.listingHrefs = some hrefs →
        getTitles (load_last_seen file) = Except.ok last →
        crawl setOrder env file = Except.ok r →
        r.checked = newIds (scanListing hrefs) last
        ∧ ∀ i ∈ last, ∀ p ∈ r.posts, p.link ≠ detailUrl i) := by
  constructor
  · intro cand last
    exact ⟨newIds_toFinset cand last, newIds_sublist cand last,
      fun i hi => newIds_not_mem_of_mem_last hi⟩
  · intro setOrder env file hrefs last r hb hn hg hc
    rw [crawl_eq_ok hg, crawlBody_listing hb hn] at hc
    cases hc
    refine ⟨rfl, ?_⟩
    intro i hi p hp hlink
    have hp' : p ∈ (processItems env.extract (newIds (scanListing hrefs) last)).1 := hp
    obtain ⟨j, hj, hjl⟩ := processItems_fst_link hp'
    have hji : j = i := detailUrl_inj (hjl.symm.trans hlink)
    exact newIds_not_mem_of_mem_last hi (hji ▸ hj)

/-- Witness for C1 at a concrete run: with empty prior state the checked
ids are exactly the delta of the scan. -/
theorem C1_delta_correct_witness :
    (CrawlResult.mk ["1", "2", "3"] [cexPost]
      [(formatMsg cexPost, SendOutcome.skippedNoConfig)] (some ["2", "3"])).checked
      = newIds (scanListing cexHrefs) [] :=
  (C1_delta_correct.2 List.dedup cexEnv StateFile.missing cexHrefs []
    (CrawlResult.mk ["1", "2", "3"] [cexPost]
      [(formatMsg cexPost, SendOutcome.skippedNoConfig)] (some ["2", "3"]))
    rfl rfl rfl rfl).1

/-- Counterexample to claim C3: in the batch {"1", "2", "3"} where
extraction raises for "1", ids "2" and "3" are still processed (and "2"
is notified), but "1" is NOT added to the persisted seen-state — the
saved titles are `["2", "3"]` — and a subsequent run with the same
listing re-checks "1" (its `checked` list is `["1"]`), contradicting the
claim that X is recorded as processed and never re-checked. -/
theorem C3_counterexample :
    crawl List.dedup cexEnv StateFile.missing =
      Except.ok (CrawlResult.mk ["1", "2", "3"] [cexPost]
        [(formatMsg cexPost, SendOutcome.skippedNoConfig)] (some ["2", "3"]))
    ∧ ("1" : String) ∉ (["2", "3"] : List String)
    ∧ crawl List.dedup cexEnv (StateFile.validJson (PyJson.obj (some ["2", "3"]))) =
        Except.ok (CrawlResult.mk ["1"] [] [] (some ["2", "3"])) := by
  exact ⟨rfl, by decide, rfl⟩

/-- Claim C3 as amended: when extraction raises for identifier X among a
new batch, the other ids are still extracted, filtered and (if
qualifying) collected for notification exactly as if X were absent; but X
is NOT appended to the processed list, so (unless it was already in the
prior state) it is absent from the saved seen-state and will be
re-checked by a later run. -/
theorem C3_partial_failure_amended :
    ∀ (extract : String → DetailResult) (x : String),
      extract x = DetailResult.error →
      (∀ l₁ l₂ : List String,
        processItems extract (l₁ ++ x :: l₂) = processItems extract (l₁ ++ l₂))
      ∧ (∀ l : List String, x ∉ (processItems extract l).2)
      ∧ (∀ (setOrder : List String → List String) (last l : List String),
          IsSetList setOrder → x ∉ last →
          x ∉ savedTitles setOrder (processItems extract l).2 last) := by
  intro extract x hx
  refine ⟨processItems_error_skip hx, fun l => processItems_error_not_mem hx, ?_⟩
  intro setOrder last l hso hlast hmem
  have h1 : x ∈ setOrder ((processItems extract l).2 ++ last) :=
    (List.take_sublist _ _).subset hmem
  have h2 : x ∈ (processItems extract l).2 ++ last := ((hso _).2 x).mp h1
  rcases List.mem_append.mp h2 with h | h
  · exact processItems_error_not_mem hx h
  · exact hlast h

/-- Witness for the amended C3 at a concrete input: dropping the failing
id "1" from the batch does not change the outcome for "2" and "3". -/
theorem C3_partial_failure_amended_witness :
    processItems cexEnv.extract ([] ++ "1" :: ["2", "3"]) =
      processItems cexEnv.extract ([] ++ ["2", "3"]) :=
  (C3_partial_failure_amended cexEnv.extract "1" rfl).1 [] ["2", "3"]

/-- Claim C6: delivery outcomes have no influence on control flow — runs
differing only in the notifier's HTTP responses check the same ids,
collect the same posts, attempt the same messages in the same order and
save the same state (so an id notified with a failing delivery is still
persisted and never re-notified); moreover every pending qualifying post
gets exactly one delivery attempt, whose non-200 outcome is only
recorded (`SendOutcome.posted`), never raised. -/
theorem C6_delivery_isolated :
    (∀ (setOrder : List String → List String) (env : Env) (file : StateFile)
        (s₁ s₂ : String → Nat),
      (crawl setOrder (withStatus env s₁) file).map stripOutcomes =
        (crawl setOrder (withStatus env s₂) file).map stripOutcomes)
    ∧ (∀ (setOrder : List String → List String) (env : Env) (file : StateFile)
        (r : CrawlResult),
        crawl setOrder env file = Except.ok r →
        r.notifications = r.posts.map (fun p =>
          (formatMsg p, send_telegram_message env.config env.sendStatus (formatMsg p)))) := by
  constructor
  · intro setOrder env file s₁ s₂
    unfold crawl
    cases hg : getTitles (load_last_seen file) with
    | error e => rfl
    | ok last =>
      show Except.ok (stripOutcomes (crawlBody setOrder (withStatus env s₁) last)) =
        Except.ok (stripOutcomes (crawlBody setOrder (withStatus env s₂) last))
      rw [stripOutcomes_withStatus, stripOutcomes_withStatus]
  · intro setOrder env file r h
    cases hg : getTitles (load_last_seen file) with
    | error e =>
      unfold crawl at h
      rw [hg] at h
      cases h
    | ok last =>
      rw [crawl_eq_ok hg] at h
      cases h
      cases hbb : env.browserLaunch with
      | false =>
        rw [crawlBody_noBrowser hbb]
        rfl
      | true =>
        cases hn : env.listingHrefs with
        | none =>
          rw [crawlBody_listingFail hbb hn]
          rfl
        | some hrefs =>
          rw [crawlBody_listing hbb hn]
          rfl

/-- Witness for C6's second part at a concrete run: the notification list
of the `cexEnv` run is exactly one attempt per qualifying post. -/
theorem C6_delivery_isolated_witness :
    (CrawlResult.mk ["1", "2", "3"] [cexPost]
      [(formatMsg cexPost, SendOutcome.skippedNoConfig)]
      (some ["2", "3"])).notifications =
      (CrawlResult.mk ["1", "2", "3"] [cexPost]
        [(formatMsg cexPost, SendOutcome.skippedNoConfig)]
        (some ["2", "3"])).posts.map (fun p =>
          (formatMsg p, send_telegram_message cexEnv.config cexEnv.sendStatus (formatMsg p))) :=
  C6_delivery_isolated.2 List.dedup cexEnv StateFile.missing
    (CrawlResult.mk ["1", "2", "3"] [cexPost]
      [(formatMsg cexPost, SendOutcome.skippedNoConfig)] (some ["2", "3"])) rfl

/-- Claim C9: a second run whose listing yields only identifiers already
in the state persisted by a first run sends zero notifications, collects
zero posts, and persists the same identifier set. -/
theorem C9_idempotent :
    ∀ (setOrder : List String → List String) (env₁ : Env) (file₁ : StateFile)
      (r₁ : CrawlResult) (T : List String) (env₂ : Env) (hrefs₂ : List String),
      IsSetList setOrder →
      crawl setOrder env₁ file₁ = Except.ok r₁ →
      r₁.saved = some T →
      env₂.browserLaunch = true →
      env₂.listingHrefs = some hrefs₂ →
      (∀ i ∈ scanListing hrefs₂, i ∈ T) →
      (crawl setOrder env₂ (StateFile.validJson (PyJson.obj (some T)))).map
          (fun r => (r.notifications, r.posts, r.saved.map List.toFinset)) =
        Except.ok ([], [], some T.toFinset) := by
  intro setOrder env₁ file₁ r₁ T env₂ hrefs₂ hso h1 hs1 hb hn hsub
  obtain ⟨c, l, hT⟩ := crawl_saved_shape h1 hs1
  have hTnd : T.Nodup := by
    rw [hT]
    exact List.Nodup.sublist (List.take_sublist _ _) (hso _).1
  have hTlen : T.length ≤ 100 := by
    rw [hT]
    exact List.length_take_le _ _
  have hnew : newIds (scanListing hrefs₂) T = [] := by
    unfold newIds
    rw [List.filter_eq_nil_iff]
    intro a ha
    simp [hsub a ha]
  have hload : getTitles (load_last_seen (StateFile.validJson (PyJson.obj (some T)))) =
      Except.ok T := rfl
  have hbody : crawlBody setOrder env₂ T =
      CrawlResult.mk [] [] [] (some ((setOrder T).take 100)) := by
    rw [crawlBody_listing hb hn]
    unfold runListing
    simp only [hnew, processItems_nil, List.map_nil, savedTitles, List.nil_append]
  rw [crawl_eq_ok hload, hbody]
  have htake : (setOrder T).take 100 = setOrder T := by
    apply List.take_of_length_le
    rw [setList_length_of_nodup hso hTnd]
    exact hTlen
  simp only [Except.map, htake]
  have hms : Option.map List.toFinset (some (setOrder T)) = some (setOrder T).toFinset := rfl
  rw [hms, setList_toFinset_eq hso]

/-- Witness for C9 at a concrete pair of runs: after `plainEnv` saves the
empty state, a second identical run notifies nothing and saves the same
(empty) set. -/
theorem C9_idempotent_witness :
    (crawl List.dedup plainEnv (StateFile.validJson (PyJson.obj (some [])))).map
        (fun r => (r.notifications, r.posts, r.saved.map List.toFinset)) =
      Except.ok ([], [], some ([] : List String).toFinset) :=
  C9_idempotent List.dedup plainEnv StateFile.missing
    (CrawlResult.mk [] [] [] (some [])) [] plainEnv []
    isSetList_dedup rfl rfl rfl rfl (fun _ hi => nomatch hi)

/-- Claim C10: every identifier the listing scan produces — hence every id
the crawler itself adds to the processed set — is a nonempty string of
decimal digits, and every run started from a state whose titles are all
digit strings (in particular an absent or empty state file) saves only
digit strings, so the invariant is preserved by every run. -/
theorem C10_digit_ids :
    (∀ (hrefs : List String) (t : String), t ∈ scanListing hrefs → isDigitStr t = true)
    ∧ ∀ (setOrder : List String → List String) (env : Env) (file : StateFile)
        (last : List String) (r : CrawlResult) (ts : List String),
        IsSetList setOrder →
        getTitles (load_last_seen file) = Except.ok last →
        (∀ t ∈ last, isDigitStr t = true) →
        crawl setOrder env file = Except.ok r →
        r.saved = some ts →
        ∀ t ∈ ts, isDigitStr t = true := by
  constructor
  · intro hrefs t ht
    exact scanListing_digits ht
  · intro setOrder env file last r ts hso hg hlast h hs t ht
    rw [crawl_eq_ok hg] at h
    cases h
    cases hbb : env.browserLaunch with
    | false =>
      rw [crawlBody_noBrowser hbb] at hs
      cases hs
    | true =>
      cases hn : env.listingHrefs with
      | none =>
        rw [crawlBody_listingFail hbb hn] at hs
        cases hs
        have h1 : t ∈ setOrder ([] ++ last) := (List.take_sublist _ _).subset ht
        have h2 : t ∈ ([] : List String) ++ last := ((hso _).2 t).mp h1
        rw [List.nil_append] at h2
        exact hlast t h2
      | some hrefs =>
        rw [crawlBody_listing hbb hn] at hs
        have hs' : (some (savedTitles setOrder
            (processItems env.extract (newIds (scanListing hrefs) last)).2 last) :
              Option (List String)) = some ts := hs
        cases hs'
        have h1 : t ∈ setOrder
            ((processItems env.extract (newIds (scanListing hrefs) last)).2 ++ last) :=
          (List.take_sublist _ _).subset ht
        have h2 := ((hso _).2 t).mp h1
        rcases List.mem_append.mp h2 with h3 | h3
        · have h4 := processItems_snd_subset h3
          have h5 : t ∈ scanListing hrefs := (mem_newIds.mp h4).1
          exact scanListing_digits h5
        · exact hlast t h3

/-- Witness for C10's run-level part at a concrete run: the id "2" saved
by the `cexEnv` run is a digit string. -/
theorem C10_digit_ids_witness : isDigitStr "2" = true :=
  C10_digit_ids.2 List.dedup cexEnv StateFile.missing []
    (CrawlResult.mk ["1", "2", "3"] [cexPost]
      [(formatMsg cexPost, SendOutcome.skippedNoConfig)] (some ["2", "3"]))
    ["2", "3"] isSetList_dedup rfl (by decide) rfl rfl "2" (by decide)

end KStartup
